import Mathlib

/-!
Verification development for the Power BI M-query lineage resolver
(`metadata-ingestion/.../powerbi/m_query/resolver.py`).

The resolver walks an M-expression parse tree backwards from the table's
output variable to a recognized data-access function invocation, building a
chain of item-selector "accessor" frames, and then dispatches the completed
`DataAccessFunctionDetail` to a per-platform table-creator strategy.

Embedding conventions:
* Python functions that can raise (`dict[k]`, `list[i]`, attribute access on
  `None`) are modelled in the `Except String` monad; a `.error` value models
  an escaping Python exception (`KeyError`, `IndexError`, `AttributeError`).
* The parse tree navigator (`tree_function.py`), the platform-pair constants
  (`config.py`) and the dataclasses (`data_classes.py`) are not part of the
  analysed sources; they are modelled from the specification and marked
  `Modelled from the spec:` in their doc comments.
* The external native SQL table extractor (`native_sql_parser.get_tables`)
  is an explicit function parameter `get_tables`.
* The recursive backward traversal carries an explicit fuel parameter,
  because the Python code has no cycle guard (spec section 9 open risk).
-/

/-- Modelled from the spec: `tree_function.strip_char_from_list` applied to a
single value strips the surrounding double-quote characters of a literal
token ("strip surrounding quote characters"). -/
def strip_quotes (s : String) : String :=
  String.mk ((((s.toList.dropWhile (fun c => c == '"')).reverse).dropWhile
    (fun c => c == '"')).reverse)

/-- Modelled from the spec: `tree_function.strip_char_from_list` strips the
surrounding quote characters of every token in the list. -/
def strip_char_from_list (values : List String) : List String :=
  values.map strip_quotes

/-- A token that is empty or consists only of whitespace characters. -/
def is_whitespace_only (s : String) : Bool :=
  s.toList.all (fun c => c == ' ' || c == '\t' || c == '\n' || c == '\r')

/-- Modelled from the spec: `tree_function.remove_whitespaces_from_list`
drops tokens that consist only of incidental whitespace. -/
def remove_whitespaces_from_list (values : List String) : List String :=
  values.filter (fun v => !is_whitespace_only v)

/-- Python's `str.split` with a one-character separator, on a character
list: splitting the empty text yields one empty segment, and every
separator occurrence starts a new segment. -/
def split_chars (sep : Char) : List Char → List (List Char)
  | [] => [[]]
  | c :: cs =>
      let r := split_chars sep cs
      if c == sep then [] :: r
      else
        match r with
        | [] => [[c]]
        | g :: gs => (c :: g) :: gs

/-- Python's `str.split` with a one-character separator. -/
def py_split (s : String) (sep : Char) : List String :=
  (split_chars sep s.toList).map (fun cs => String.mk cs)

/-- Python `list[i]` indexing: raises `IndexError` when out of range. -/
def py_index {α : Type} (xs : List α) (i : Nat) : Except String α :=
  match xs.get? i with
  | some v => Except.ok v
  | none => Except.error "IndexError"

/-- Python `dict[k]` lookup on an association list (newest binding first):
raises `KeyError` when the key is absent. -/
def dict_get (items : List (String × String)) (k : String) : Except String String :=
  match items.lookup k with
  | some v => Except.ok v
  | none => Except.error ("KeyError: " ++ k)

/-- Python attribute access through an `Optional` value: accessing a field of
`None` raises `AttributeError`. -/
def py_attr {α : Type} (x : Option α) : Except String α :=
  match x with
  | some v => Except.ok v
  | none => Except.error "AttributeError"

/-- Modelled from the spec: `DataPlatformPair` from `config.py` — the static
pair of a Power BI platform name and a catalog platform name. -/
structure DataPlatformPair where
  powerbi_data_platform_name : String
  datahub_data_platform_name : String
deriving DecidableEq, Repr

/-- Modelled from the spec: the static platform pair for PostgreSQL. -/
def postgresPair : DataPlatformPair := ⟨"PostgreSQL", "postgres"⟩

/-- Modelled from the spec: the static platform pair for Oracle. -/
def oraclePair : DataPlatformPair := ⟨"Oracle", "oracle"⟩

/-- Modelled from the spec: the static platform pair for Snowflake. -/
def snowflakePair : DataPlatformPair := ⟨"Snowflake", "snowflake"⟩

/-- Modelled from the spec: the static platform pair for MS-SQL. -/
def msSqlPair : DataPlatformPair := ⟨"Sql", "mssql"⟩

/-- Modelled from the spec: the static platform pair for Databricks. -/
def databricksPair : DataPlatformPair := ⟨"Databricks", "databricks"⟩

/-- Modelled from the spec: the static platform pair for Google BigQuery. -/
def bigQueryPair : DataPlatformPair := ⟨"GoogleBigQuery", "bigquery"⟩

/-- Modelled from the spec: the static platform pair for Amazon Redshift. -/
def redshiftPair : DataPlatformPair := ⟨"AmazonRedshift", "redshift"⟩

/-- The terminal output unit of the resolver (`DataPlatformTable` dataclass
in `resolver.py`). -/
structure DataPlatformTable where
  name : String
  full_name : String
  datasource_server : String
  data_platform_pair : DataPlatformPair
deriving DecidableEq, Repr

/-- Modelled from the spec: `IdentifierAccessor` from `data_classes.py` — a
singly linked, innermost-to-outermost chain of item-selector frames
`{ identifier, items, next }`.  The Python string-keyed dict `items` is an
association list whose newest binding comes first. -/
inductive IdentifierAccessor where
  | mk (identifier : String) (items : List (String × String))
      (next : Option IdentifierAccessor)

/-- The `identifier` field of an accessor frame. -/
def IdentifierAccessor.identifier : IdentifierAccessor → String
  | .mk i _ _ => i

/-- The `items` mapping of an accessor frame. -/
def IdentifierAccessor.items : IdentifierAccessor → List (String × String)
  | .mk _ it _ => it

/-- The `next` pointer of an accessor frame (towards the data-access call). -/
def IdentifierAccessor.next : IdentifierAccessor → Option IdentifierAccessor
  | .mk _ _ n => n

/-- Modelled from the spec: one flattened argument subtree of an invocation
argument list, reduced to the projections the resolver actually takes of it:
its raw token values (`tree_function.token_values`) and, when present, the
token values of the first list/type expression beneath it
(`first_list_expression_func` / `first_type_expression_func`). -/
structure MArg where
  tokens : List String
  innerExpr : Option (List String)
deriving DecidableEq, Repr

/-- Modelled from the spec: an invocation's argument-list subtree, reduced to
its flattened arguments (`tree_function.flat_argument_list`). -/
structure ArgListTree where
  flatArgs : List MArg
deriving DecidableEq, Repr

/-- Modelled from the spec: `tree_function.token_values` over a whole
argument list is the concatenation of the token values of its flattened
arguments. -/
def token_values (a : ArgListTree) : List String :=
  (a.flatArgs.map MArg.tokens).flatten

/-- Embedding of `DataAccessFunctionDetail` from `data_classes.py`: the completed record
of one recognized data-access invocation. -/
structure DataAccessFunctionDetail where
  arg_list : ArgListTree
  data_access_function_name : String
  identifier_accessor : Option IdentifierAccessor

/-- A diagnostics-sink entry: `report_warning(context_key, message)`. -/
abbrev Warning := String × String

/-- Source `AbstractDataPlatformTableCreator.get_db_detail_from_argument`: strip and
filter the argument tokens; fewer than two arguments yields `(None, None)`,
else the first two arguments as `(server, database)`. -/
def get_db_detail_from_argument (arg_list : ArgListTree) :
    Option String × Option String :=
  let arguments := strip_char_from_list
    (remove_whitespaces_from_list (token_values arg_list))
  if arguments.length < 2 then (none, none)
  else (arguments.get? 0, arguments.get? 1)

/-- Source `DefaultTwoStepDataAccessSources.two_level_access_pattern`: two argument
tokens give server and database; the schema and table come from the single
accessor frame's `"Schema"` and `"Item"` keys (a missing frame or key raises,
as the Python attribute/dict access does). -/
def two_level_access_pattern (pair : DataPlatformPair)
    (d : DataAccessFunctionDetail) : Except String (List DataPlatformTable) :=
  match get_db_detail_from_argument d.arg_list with
  | (some server, some db_name) => do
      let acc ← py_attr d.identifier_accessor
      let schema_name ← dict_get acc.items "Schema"
      let table_name ← dict_get acc.items "Item"
      Except.ok [⟨table_name, db_name ++ "." ++ schema_name ++ "." ++ table_name,
        server, pair⟩]
  | _ => Except.ok []

/-- Source `PostgresDataPlatformTableCreator.create_dataplatform_tables`. -/
def postgres_create_dataplatform_tables (d : DataAccessFunctionDetail) :
    Except String (List DataPlatformTable) :=
  two_level_access_pattern postgresPair d

/-- The per-table loop of the MS-SQL embedded-SQL case: split each extracted
table name on `.`, default a missing schema to `"dbo"`. -/
def mssql_tables_loop (db_name server : String) :
    List String → Except String (List DataPlatformTable)
  | [] => Except.ok []
  | table :: rest => do
      let schema_and_table :=
        let st := py_split table '.'
        if st.length == 1 then "dbo" :: st else st
      let nm ← py_index schema_and_table 1
      let s0 ← py_index schema_and_table 0
      let restTables ← mssql_tables_loop db_name server rest
      Except.ok (⟨nm, db_name ++ "." ++ s0 ++ "." ++ nm, server, msSqlPair⟩
        :: restTables)

/-- The stripped and whitespace-filtered argument tokens computed at the top
of `MSSqlDataPlatformTableCreator.create_dataplatform_tables`. -/
def mssql_arguments (d : DataAccessFunctionDetail) : List String :=
  strip_char_from_list (remove_whitespaces_from_list (token_values d.arg_list))

/-- Source `MSSqlDataPlatformTableCreator.create_dataplatform_tables`: exactly two
arguments is the regular two-level case; four or more arguments whose third
token is not `"Query"` is unsupported (empty result); otherwise the fourth
token is the embedded SQL, handed to the external extractor `get_tables`.
Index accesses are the Python list indexings and can raise `IndexError`. -/
def mssql_create_dataplatform_tables (get_tables : String → List String)
    (d : DataAccessFunctionDetail) : Except String (List DataPlatformTable) :=
  let arguments := mssql_arguments d
  if arguments.length == 2 then
    two_level_access_pattern msSqlPair d
  else if 4 ≤ arguments.length ∧ arguments.getD 2 "" ≠ "Query" then
    Except.ok []
  else do
    let db_name ← py_index arguments 1
    let qtext ← py_index arguments 3
    let server ← py_index arguments 0
    mssql_tables_loop db_name server (get_tables qtext)

/-- Source `OracleDataPlatformTableCreator._get_server_and_db_name`: the single
argument must split on `/` into exactly two segments; the database name is
the part of the second segment before the first `.`; the server is the first
segment with surrounding quotes stripped. -/
def oracle_get_server_and_db_name (value : String) :
    Option String × Option String :=
  let splitter_result := py_split value '/'
  if splitter_result.length ≠ 2 then (none, none)
  else
    let db_name := (py_split (splitter_result.getD 1 "") '.').getD 0 ""
    (some (strip_quotes (splitter_result.getD 0 "")), some db_name)

/-- Source `OracleDataPlatformTableCreator.create_dataplatform_tables`: schema from
the head accessor frame's `"Schema"` key, table from the `next` frame's
`"Name"` key. -/
def oracle_create_dataplatform_tables (d : DataAccessFunctionDetail) :
    Except String (List DataPlatformTable) := do
  let arguments := remove_whitespaces_from_list (token_values d.arg_list)
  let a0 ← py_index arguments 0
  match oracle_get_server_and_db_name a0 with
  | (some server, some db_name) => do
      let acc ← py_attr d.identifier_accessor
      let schema_name ← dict_get acc.items "Schema"
      let nxt ← py_attr acc.next
      let table_name ← dict_get nxt.items "Name"
      Except.ok [⟨table_name, db_name ++ "." ++ schema_name ++ "." ++ table_name,
        server, oraclePair⟩]
  | _ => Except.ok []

/-- The `while temp_accessor` loop of
`DatabrickDataPlatformTableCreator.create_dataplatform_tables`: walk the
chain collecting `items["Kind"] -> items["Name"]` into `value_dict` (newest
binding first, as Python dict assignment overwrites). -/
def databricks_walk : IdentifierAccessor → List (String × String) →
    Except String (List (String × String))
  | .mk _ itms nxt, value_dict => do
      let kind ← dict_get itms "Kind"
      let nm ← dict_get itms "Name"
      match nxt with
      | some nx => databricks_walk nx ((kind, nm) :: value_dict)
      | none => Except.ok ((kind, nm) :: value_dict)

/-- Source `DatabrickDataPlatformTableCreator.create_dataplatform_tables`: the
collected `value_dict` must contain `"Database"`, `"Schema"` and `"Table"`
(Python dict indexing, raising `KeyError` when absent); the server comes from
the first call argument, defaulting to the empty string. -/
def databricks_create_dataplatform_tables (d : DataAccessFunctionDetail) :
    Except String (List DataPlatformTable) := do
  let value_dict ← match d.identifier_accessor with
    | none => Except.ok ([] : List (String × String))
    | some a => databricks_walk a []
  let db_name ← dict_get value_dict "Database"
  let schema_name ← dict_get value_dict "Schema"
  let table_name ← dict_get value_dict "Table"
  let server := match get_db_detail_from_argument d.arg_list with
    | (some s, _) => s
    | (none, _) => ""
  Except.ok [⟨table_name, db_name ++ "." ++ schema_name ++ "." ++ table_name,
    server, databricksPair⟩]

/-- Source `DefaultThreeStepDataAccessSources.create_dataplatform_tables`: database,
schema and table names come from the `"Name"` keys of three chained accessor
frames; the datasource server is platform-specific (`serverOf`). -/
def three_step_create_dataplatform_tables (pair : DataPlatformPair)
    (serverOf : List String → DataAccessFunctionDetail → Except String String)
    (d : DataAccessFunctionDetail) : Except String (List DataPlatformTable) := do
  let arguments := remove_whitespaces_from_list (token_values d.arg_list)
  let acc ← py_attr d.identifier_accessor
  let db_name ← dict_get acc.items "Name"
  let n1 ← py_attr acc.next
  let schema_name ← dict_get n1.items "Name"
  let n2 ← py_attr n1.next
  let table_name ← dict_get n2.items "Name"
  let server ← serverOf arguments d
  Except.ok [⟨table_name, db_name ++ "." ++ schema_name ++ "." ++ table_name,
    server, pair⟩]

/-- Source `DefaultThreeStepDataAccessSources.get_datasource_server` (used by
Snowflake): the first argument token, quotes stripped. -/
def snowflake_get_datasource_server (arguments : List String)
    (_d : DataAccessFunctionDetail) : Except String String := do
  let a0 ← py_index arguments 0
  Except.ok (strip_quotes a0)

/-- Source `GoogleBigQueryDataPlatformTableCreator.get_datasource_server`: the
project name is the head accessor frame's `"Name"` value, or empty when the
accessor is absent. -/
def bigquery_get_datasource_server (_arguments : List String)
    (d : DataAccessFunctionDetail) : Except String String :=
  match d.identifier_accessor with
  | some a => dict_get a.items "Name"
  | none => Except.ok ""

/-- Source `AmazonRedshiftDataPlatformTableCreator.create_dataplatform_tables`:
server and database from the first two argument tokens; schema and table from
the `"Name"` keys of two chained accessor frames. -/
def redshift_create_dataplatform_tables (d : DataAccessFunctionDetail) :
    Except String (List DataPlatformTable) :=
  match get_db_detail_from_argument d.arg_list with
  | (some server, some db_name) => do
      let acc ← py_attr d.identifier_accessor
      let schema_name ← dict_get acc.items "Name"
      let nxt ← py_attr acc.next
      let table_name ← dict_get nxt.items "Name"
      Except.ok [⟨table_name, db_name ++ "." ++ schema_name ++ "." ++ table_name,
        server, redshiftPair⟩]
  | _ => Except.ok []

/-- Source `NativeQueryDataPlatformTableCreator.is_native_parsing_supported`:
membership in the fixed `SUPPORTED_NATIVE_QUERY_DATA_PLATFORM` dict, whose
keys are the Power BI platform names of Snowflake and Amazon Redshift. -/
def is_native_parsing_supported (data_access_function_name : String) : Bool :=
  data_access_function_name == snowflakePair.powerbi_data_platform_name ||
    data_access_function_name == redshiftPair.powerbi_data_platform_name

/-- Python dict indexing into `SUPPORTED_NATIVE_QUERY_DATA_PLATFORM`: yields
the platform pair, raising `KeyError` for any other key. -/
def native_query_platform_lookup (tok : String) :
    Except String DataPlatformPair :=
  if tok == snowflakePair.powerbi_data_platform_name then Except.ok snowflakePair
  else if tok == redshiftPair.powerbi_data_platform_name then
    Except.ok redshiftPair
  else Except.error ("KeyError: " ++ tok)

/-- The per-table loop of the Native-Query case: names that are not 3-part
qualified are skipped; the server is the third token of the platform argument
(a Python indexing that can raise `IndexError`). -/
def native_query_tables_loop (data_access_tokens : List String)
    (pair : DataPlatformPair) :
    List String → Except String (List DataPlatformTable)
  | [] => Except.ok []
  | table :: rest =>
      if (py_split table '.').length ≠ 3 then
        native_query_tables_loop data_access_tokens pair rest
      else do
        let nm ← py_index (py_split table '.') 2
        let t2 ← py_index data_access_tokens 2
        let restTables ← native_query_tables_loop data_access_tokens pair rest
        Except.ok (⟨nm, table, strip_quotes t2, pair⟩ :: restTables)

/-- Source `NativeQueryDataPlatformTableCreator.create_dataplatform_tables`.  Note:
the `is_native_parsing_supported` check in the source only logs and does not
return, so an unsupported platform token of length at least 3 reaches the
dict indexing `SUPPORTED_NATIVE_QUERY_DATA_PLATFORM[...]`. -/
def native_query_create_dataplatform_tables (get_tables : String → List String)
    (d : DataAccessFunctionDetail) : Except String (List DataPlatformTable) :=
  let flat_argument_list := d.arg_list.flatArgs
  if flat_argument_list.length ≠ 2 then Except.ok []
  else do
    let first_arg ← py_index flat_argument_list 0
    let data_access_tokens := remove_whitespaces_from_list first_arg.tokens
    let tok0 ← py_index data_access_tokens 0
    let _ := is_native_parsing_supported tok0
    if tok0.length < 3 then Except.ok []
    else do
      let pair ← native_query_platform_lookup tok0
      let second_arg ← py_index flat_argument_list 1
      let sql_query ← py_index
        (strip_char_from_list (remove_whitespaces_from_list second_arg.tokens)) 0
      native_query_tables_loop data_access_tokens pair (get_tables sql_query)

/-- The `SupportedResolver` enumeration of `resolver.py`. -/
inductive SupportedResolver where
  | DATABRICK_QUERY
  | POSTGRES_SQL
  | ORACLE
  | SNOWFLAKE
  | MS_SQL
  | GOOGLE_BIG_QUERY
  | AMAZON_REDSHIFT
  | NATIVE_QUERY
deriving DecidableEq, Repr

/-- Source `SupportedResolver.get_function_name`: the recognized data-access
function name of each registry entry (the `FunctionName` enum values). -/
def SupportedResolver.get_function_name : SupportedResolver → String
  | .DATABRICK_QUERY => "Databricks.Catalogs"
  | .POSTGRES_SQL => "PostgreSQL.Database"
  | .ORACLE => "Oracle.Database"
  | .SNOWFLAKE => "Snowflake.Databases"
  | .MS_SQL => "Sql.Database"
  | .GOOGLE_BIG_QUERY => "GoogleBigQuery.Database"
  | .AMAZON_REDSHIFT => "AmazonRedshift.Database"
  | .NATIVE_QUERY => "Value.NativeQuery"

/-- The registry members in their declaration (iteration) order. -/
def supportedResolverList : List SupportedResolver :=
  [.DATABRICK_QUERY, .POSTGRES_SQL, .ORACLE, .SNOWFLAKE, .MS_SQL,
    .GOOGLE_BIG_QUERY, .AMAZON_REDSHIFT, .NATIVE_QUERY]

/-- Source `SupportedResolver.get_function_names`: all recognized function names. -/
def SupportedResolver.get_function_names : List String :=
  supportedResolverList.map SupportedResolver.get_function_name

/-- Source `SupportedResolver.get_resolver`: the first registry entry whose function
name equals the given name, if any. -/
def SupportedResolver.get_resolver (function_name : String) :
    Option SupportedResolver :=
  supportedResolverList.find? (fun r => function_name == r.get_function_name)

/-- The strategy dispatch performed through
`supported_resolver.get_table_full_name_creator()().create_dataplatform_tables`. -/
def create_dataplatform_tables (r : SupportedResolver)
    (get_tables : String → List String) (d : DataAccessFunctionDetail) :
    Except String (List DataPlatformTable) :=
  match r with
  | .DATABRICK_QUERY => databricks_create_dataplatform_tables d
  | .POSTGRES_SQL => postgres_create_dataplatform_tables d
  | .ORACLE => oracle_create_dataplatform_tables d
  | .SNOWFLAKE =>
      three_step_create_dataplatform_tables snowflakePair
        snowflake_get_datasource_server d
  | .MS_SQL => mssql_create_dataplatform_tables get_tables d
  | .GOOGLE_BIG_QUERY =>
      three_step_create_dataplatform_tables bigQueryPair
        bigquery_get_datasource_server d
  | .AMAZON_REDSHIFT => redshift_create_dataplatform_tables d
  | .NATIVE_QUERY => native_query_create_dataplatform_tables get_tables d

/-- Modelled from the spec: the right-hand expression of a variable
statement, reduced to the three shapes the resolver distinguishes — a
function invocation (`first_invoke_expression_func` finds one), an
item-selector expression (identifier plus key/value items, either possibly
unavailable, as `get_item_selector_tokens` may return `None`), or any other
unsupported shape. -/
inductive MExpression where
  | invoke (funcName : String) (argList : Option ArgListTree)
  | itemSelector (identifier : Option String)
      (items : Option (List (String × String)))
  | other
deriving DecidableEq, Repr

/-- Modelled from the spec: one `variable_statement` of the parse tree,
`<variable-name> = <expression>`. -/
structure MStatement where
  name : String
  expr : MExpression
deriving DecidableEq, Repr

/-- Modelled from the spec: a table's parse tree, reduced to its variable
statements and (when present) the declared output variable of the `in`
clause. -/
structure MParseTree where
  statements : List MStatement
  outputVariable : Option String
deriving DecidableEq, Repr

/-- Modelled from the spec: `tree_function.get_variable_statement` locates
the statement binding the given identifier name. -/
def get_variable_statement (tree : MParseTree) (identifier : String) :
    Option MStatement :=
  tree.statements.find? (fun st => st.name == identifier)

/-- Modelled from the spec: `tree_function.get_output_variable` locates the
name in the `in` clause. -/
def get_output_variable (tree : MParseTree) : Option String :=
  tree.outputVariable

/-- Source `MQueryResolver._create_or_update_identifier_accessor`: the first frame
is created with `next = None`; a later frame is a fresh node whose `next`
points to the previous chain. -/
def create_or_update_identifier_accessor
    (identifier_accessor : Option IdentifierAccessor) (new_identifier : String)
    (key_vs_value : List (String × String)) : IdentifierAccessor :=
  match identifier_accessor with
  | none => IdentifierAccessor.mk new_identifier key_vs_value none
  | some prev => IdentifierAccessor.mk new_identifier key_vs_value (some prev)

/-- Sequential processing of the identifier tokens of an intermediate
function's first argument (`for token in result: internal(token, ...)`),
appending the results in call order. -/
def go_token_list
    (f : String → List DataAccessFunctionDetail × List Warning) :
    List String → List DataAccessFunctionDetail × List Warning
  | [] => ([], [])
  | t :: ts =>
      let r := f t
      let rest := go_token_list f ts
      (r.1 ++ rest.1, r.2 ++ rest.2)

/-- The recursive closure `internal` of
`MQueryResolver.create_data_access_functional_detail`, with the shared
mutable accumulators rendered as a returned pair (details, warnings) and an
explicit fuel (the Python recursion has no cycle guard).  Branches:
statement lookup failure warns and stops; a recognized data-access
invocation completes a `DataAccessFunctionDetail` carrying the current
accessor chain; an unrecognized invocation recurses on every identifier
token of its first argument with the same chain; an item-selector expression
prepends a fresh accessor frame and recurses on the inner identifier. -/
def internal (tree : MParseTree) (table_full_name : String) :
    Nat → String → Option IdentifierAccessor →
    List DataAccessFunctionDetail × List Warning
  | 0, _, _ => ([], [])
  | fuel + 1, current_identifier, identifier_accessor =>
    match get_variable_statement tree current_identifier with
    | none =>
        ([], [(table_full_name ++ "-variable-statement",
          "output variable (" ++ current_identifier ++
            ") statement not found in table expression")])
    | some st =>
      match st.expr with
      | MExpression.invoke data_access_func argListOpt =>
        if data_access_func ∈ SupportedResolver.get_function_names then
          match argListOpt with
          | none => ([], [(table_full_name ++ "-arg-list",
              "Argument list not found for data-access-function " ++
                data_access_func)])
          | some arg_list =>
              ([{ arg_list := arg_list,
                  data_access_function_name := data_access_func,
                  identifier_accessor := identifier_accessor }], [])
        else
          match argListOpt with
          | none => ([], [(table_full_name ++ "-variable-statement",
              "Function invocation without argument")])
          | some arg_list =>
            match arg_list.flatArgs with
            | [] => ([], [])
            | first_argument :: _ =>
              match first_argument.innerExpr with
              | none => ([], [(table_full_name ++ "-variable-statement",
                  "Function argument expression is not supported")])
              | some exprTokens =>
                  go_token_list
                    (fun t => internal tree table_full_name fuel t
                      identifier_accessor)
                    (remove_whitespaces_from_list exprTokens)
      | MExpression.itemSelector idOpt itemsOpt =>
        match idOpt, itemsOpt with
        | some new_identifier, some key_vs_value =>
            internal tree table_full_name fuel new_identifier
              (some (create_or_update_identifier_accessor identifier_accessor
                new_identifier key_vs_value))
        | _, _ => ([], [])
      | MExpression.other => ([], [])

/-- Source `MQueryResolver.create_data_access_functional_detail`: run `internal`
from the given identifier with an empty chain. -/
def create_data_access_functional_detail (tree : MParseTree)
    (table_full_name : String) (fuel : Nat) (identifier : String) :
    List DataAccessFunctionDetail × List Warning :=
  internal tree table_full_name fuel identifier none

/-- The per-detail dispatch loop of
`MQueryResolver.resolve_to_data_platform_table_list`: a missing registry
entry warns and continues; otherwise the strategy's tables are appended (a
strategy exception escapes the whole resolution). -/
def resolve_table_links (get_tables : String → List String)
    (table_full_name : String) :
    List DataAccessFunctionDetail →
    Except String (List DataPlatformTable × List Warning)
  | [] => Except.ok ([], [])
  | f_detail :: rest =>
    match SupportedResolver.get_resolver f_detail.data_access_function_name with
    | none => do
        let r ← resolve_table_links get_tables table_full_name rest
        Except.ok (r.1, (table_full_name ++ "-data-access-function",
          "Resolver not found for data-access-function = " ++
            f_detail.data_access_function_name) :: r.2)
    | some resolver => do
        let created ← create_dataplatform_tables resolver get_tables f_detail
        let r ← resolve_table_links get_tables table_full_name rest
        Except.ok (created ++ r.1, r.2)

/-- Source `MQueryResolver.resolve_to_data_platform_table_list`: find the output
variable (warning and empty result when absent), run the backward traversal,
then dispatch every produced detail to its registry strategy. -/
def resolve_to_data_platform_table_list (fuel : Nat)
    (get_tables : String → List String) (tree : MParseTree)
    (table_full_name : String) :
    Except String (List DataPlatformTable × List Warning) :=
  match get_output_variable tree with
  | none => Except.ok ([], [(table_full_name ++ "-output-variable",
      "output-variable not found in table expression")])
  | some output_variable =>
    let run := create_data_access_functional_detail tree table_full_name fuel
      output_variable
    do
      let r ← resolve_table_links get_tables table_full_name run.1
      Except.ok (r.1, run.2 ++ r.2)

/-- A node of the accessor store used by the store-instrumented rendering of
`internal` below: the fields of `IdentifierAccessor`, with the `next` Python
object reference made an explicit store index. -/
structure HNode where
  identifier : String
  items : List (String × String)
  next : Option Nat
deriving DecidableEq, Repr

/-- A `DataAccessFunctionDetail` whose accessor chain is a reference into
the accessor store. -/
structure HDetail where
  arg_list : ArgListTree
  data_access_function_name : String
  accessor : Option Nat
deriving DecidableEq, Repr

/-- Source `MQueryResolver._create_or_update_identifier_accessor`, store-level view:
both branches construct a brand-new node (`IdentifierAccessor(...)` is a
fresh Python object), appended to the store; the returned index is the new
node's address. -/
def create_or_update_identifier_accessor_heap (heap : List HNode)
    (identifier_accessor : Option Nat) (new_identifier : String)
    (key_vs_value : List (String × String)) : List HNode × Nat :=
  match identifier_accessor with
  | none => (heap ++ [⟨new_identifier, key_vs_value, none⟩], heap.length)
  | some prev => (heap ++ [⟨new_identifier, key_vs_value, some prev⟩],
      heap.length)

/-- Store-threading counterpart of `go_token_list`: the fan-out branches run
sequentially over the same store, each receiving the same accessor
reference. -/
def go_token_list_heap
    (f : String → List HNode → List HDetail × List HNode) :
    List String → List HNode → List HDetail × List HNode
  | [], heap => ([], heap)
  | t :: ts, heap =>
      let r := f t heap
      let rest := go_token_list_heap f ts r.2
      (r.1 ++ rest.1, rest.2)

/-- The store-instrumented rendering of `internal`, identical in control
flow but making the Python object identity of accessor frames observable:
accessor chains are indices into an append-only store, and fan-out branches
receive the same chain reference (warnings are elided here; they are
identical to `internal`'s). -/
def internal_heap (tree : MParseTree) (table_full_name : String) :
    Nat → String → Option Nat → List HNode → List HDetail × List HNode
  | 0, _, _, heap => ([], heap)
  | fuel + 1, current_identifier, identifier_accessor, heap =>
    match get_variable_statement tree current_identifier with
    | none => ([], heap)
    | some st =>
      match st.expr with
      | MExpression.invoke data_access_func argListOpt =>
        if data_access_func ∈ SupportedResolver.get_function_names then
          match argListOpt with
          | none => ([], heap)
          | some arg_list =>
              ([{ arg_list := arg_list,
                  data_access_function_name := data_access_func,
                  accessor := identifier_accessor }], heap)
        else
          match argListOpt with
          | none => ([], heap)
          | some arg_list =>
            match arg_list.flatArgs with
            | [] => ([], heap)
            | first_argument :: _ =>
              match first_argument.innerExpr with
              | none => ([], heap)
              | some exprTokens =>
                  go_token_list_heap
                    (fun t h => internal_heap tree table_full_name fuel t
                      identifier_accessor h)
                    (remove_whitespaces_from_list exprTokens) heap
      | MExpression.itemSelector idOpt itemsOpt =>
        match idOpt, itemsOpt with
        | some new_identifier, some key_vs_value =>
            let alloc := create_or_update_identifier_accessor_heap heap
              identifier_accessor new_identifier key_vs_value
            internal_heap tree table_full_name fuel new_identifier
              (some alloc.2) alloc.1
        | _, _ => ([], heap)
      | MExpression.other => ([], heap)

/-- The items mappings along an accessor chain of the store, read through
the `next` references (bounded by a fuel; chains produced by the resolver
are shorter than the store). -/
def read_chain_items (heap : List HNode) :
    Nat → Option Nat → List (List (String × String))
  | _, none => []
  | 0, some _ => []
  | fuel + 1, some i =>
      match heap.get? i with
      | none => []
      | some nd => nd.items :: read_chain_items heap fuel nd.next

/-- The items mappings along a detail's whole accessor chain. -/
def detail_chain_items (heap : List HNode) (acc : Option Nat) :
    List (List (String × String)) :=
  read_chain_items heap heap.length acc

/-- Mutating the `items` mapping of the accessor frame stored at index `i`
(the externally observable effect the fan-out independence claim is
about). -/
def mutate_items (heap : List HNode) (i : Nat)
    (new_items : List (String × String)) : List HNode :=
  match heap.get? i with
  | some nd => heap.set i ⟨nd.identifier, new_items, nd.next⟩
  | none => heap

/-- Membership in the details produced by a token fan-out comes from one of
the branch runs. -/
theorem mem_go_token_list_fst
    {f : String → List DataAccessFunctionDetail × List Warning}
    {ts : List String} {d : DataAccessFunctionDetail}
    (h : d ∈ (go_token_list f ts).1) : ∃ t ∈ ts, d ∈ (f t).1 := by
  induction ts with
  | nil => simp [go_token_list] at h
  | cons t ts ih =>
      simp only [go_token_list, List.mem_append] at h
      rcases h with h | h
      · exact ⟨t, List.mem_cons_self t ts, h⟩
      · rcases ih h with ⟨u, hu, hd⟩
        exact ⟨u, List.mem_cons_of_mem t hu, hd⟩

/-- Every name in the registry's function-name list has a registry entry:
the `get_resolver` lookup succeeds. -/
theorem get_resolver_isSome_of_mem {s : String}
    (h : s ∈ SupportedResolver.get_function_names) :
    (SupportedResolver.get_resolver s).isSome = true := by
  rcases List.mem_map.mp h with ⟨r, hr, hfn⟩
  rw [SupportedResolver.get_resolver, List.find?_isSome]
  exact ⟨r, hr, by simp [hfn]⟩

/-- C10: for every parse tree in which no output variable can be located,
`resolve_to_data_platform_table_list` returns the empty sequence and reports
exactly one warning under the context key
`<table full name>-output-variable`, without traversal, strategy invocation,
or any escaping exception. -/
theorem c10_missing_output_variable (fuel : Nat)
    (get_tables : String → List String) (tree : MParseTree)
    (table_full_name : String) (h : tree.outputVariable = none) :
    resolve_to_data_platform_table_list fuel get_tables tree table_full_name =
      Except.ok ([], [(table_full_name ++ "-output-variable",
        "output-variable not found in table expression")]) := by
  simp [resolve_to_data_platform_table_list, get_output_variable, h]

/-- Witness for C10 at a concrete parse tree with no output variable. -/
theorem c10_missing_output_variable_witness :
    resolve_to_data_platform_table_list 0 (fun _ => []) ⟨[], none⟩ "T" =
      Except.ok ([], [("T" ++ "-output-variable",
        "output-variable not found in table expression")]) :=
  c10_missing_output_variable 0 (fun _ => []) ⟨[], none⟩ "T" rfl

/-- C6: the Native-Query allow-list check recognizes only Snowflake and
AmazonRedshift, yet an invocation whose platform token is outside the
allow-list (and at least 3 characters long) raises a `KeyError` at the
`SUPPORTED_NATIVE_QUERY_DATA_PLATFORM` dict indexing instead of returning an
empty sequence: the `is_native_parsing_supported` check only logs and is
missing its early return. -/
theorem c6_native_query_unsupported_platform_raises :
    is_native_parsing_supported "Oracle" = false ∧
    native_query_create_dataplatform_tables (fun _ => [])
      ⟨⟨[⟨["Oracle", "x", "\"srv\""], none⟩, ⟨["\"select 1\""], none⟩]⟩,
        "Value.NativeQuery", none⟩ = Except.error "KeyError: Oracle" ∧
    native_query_create_dataplatform_tables (fun _ => [])
      ⟨⟨[⟨["Oracle", "x", "\"srv\""], none⟩, ⟨["\"select 1\""], none⟩]⟩,
        "Value.NativeQuery", none⟩ ≠ Except.ok [] :=
  ⟨rfl, rfl, fun h => Except.noConfusion h⟩

/-- Counterexample for C2: a Databricks accessor chain whose collected kinds
lack the `"Schema"` key makes `create_dataplatform_tables` raise a
`KeyError` (the Python dict indexing `value_dict["Schema"]`), not return an
empty sequence with a warning. -/
theorem c2_missing_accessor_key_raises :
    databricks_create_dataplatform_tables
      ⟨⟨[⟨["\"h\""], none⟩, ⟨["\"d\""], none⟩]⟩, "Databricks.Catalogs",
        some (IdentifierAccessor.mk "x" [("Kind", "Database"), ("Name", "db")]
          (some (IdentifierAccessor.mk "y" [("Kind", "Table"), ("Name", "tbl")]
            none)))⟩ = Except.error "KeyError: Schema" ∧
    databricks_create_dataplatform_tables
      ⟨⟨[⟨["\"h\""], none⟩, ⟨["\"d\""], none⟩]⟩, "Databricks.Catalogs",
        some (IdentifierAccessor.mk "x" [("Kind", "Database"), ("Name", "db")]
          (some (IdentifierAccessor.mk "y" [("Kind", "Table"), ("Name", "tbl")]
            none)))⟩ ≠ Except.ok [] :=
  ⟨rfl, fun h => Except.noConfusion h⟩

/-- C2 (amended): a strategy given fewer argument tokens than its address
shape needs returns an empty sequence (with only a debug log — the
strategies hold no reporter, so no warning is recorded); but a missing
required accessor key, such as `"Schema"` in a Databricks chain, raises a
`KeyError` instead of returning.  No partially-filled `DataPlatformTable` is
emitted in either case. -/
theorem c2_amended_edge_case_policy :
    (∀ (pair : DataPlatformPair) (d : DataAccessFunctionDetail),
      (strip_char_from_list (remove_whitespaces_from_list
        (token_values d.arg_list))).length < 2 →
      two_level_access_pattern pair d = Except.ok []) ∧
    (∀ (db tbl : String) (al : ArgListTree),
      databricks_create_dataplatform_tables
        ⟨al, "Databricks.Catalogs",
          some (IdentifierAccessor.mk "x" [("Kind", "Database"), ("Name", db)]
            (some (IdentifierAccessor.mk "y" [("Kind", "Table"), ("Name", tbl)]
              none)))⟩ = Except.error "KeyError: Schema") := by
  constructor
  · intro pair d h
    simp [two_level_access_pattern, get_db_detail_from_argument, h]
  · intro db tbl al
    rfl

/-- Witness for C2's amended theorem: a two-level strategy applied to a
detail with a single argument token returns the empty sequence. -/
theorem c2_amended_edge_case_policy_witness :
    two_level_access_pattern postgresPair
      ⟨⟨[⟨["\"only\""], none⟩]⟩, "PostgreSQL.Database", none⟩ =
      Except.ok [] :=
  c2_amended_edge_case_policy.1 postgresPair
    ⟨⟨[⟨["\"only\""], none⟩]⟩, "PostgreSQL.Database", none⟩ (by decide)

/-- Counterexample for C3: an `Sql.Database` invocation with exactly three
argument tokens satisfies neither guard, falls through to the embedded-SQL
path, and raises `IndexError` at `arguments[3]` instead of returning an
empty sequence. -/
theorem c3_three_argument_shape_raises :
    mssql_create_dataplatform_tables (fun _ => [])
      ⟨⟨[⟨["\"h\""], none⟩, ⟨["\"d\""], none⟩, ⟨["\"q\""], none⟩]⟩,
        "Sql.Database", none⟩ = Except.error "IndexError" ∧
    mssql_create_dataplatform_tables (fun _ => [])
      ⟨⟨[⟨["\"h\""], none⟩, ⟨["\"d\""], none⟩, ⟨["\"q\""], none⟩]⟩,
        "Sql.Database", none⟩ ≠ Except.ok [] :=
  ⟨rfl, fun h => Except.noConfusion h⟩

/-- C3 (amended): the MS-SQL strategy returns the direct-table result for
exactly 2 arguments, and an empty sequence for 4-or-more arguments whose
third token differs from `"Query"` (logged only); but an argument list of
exactly 3 tokens, or of fewer than 2 tokens, raises `IndexError` rather
than returning an empty sequence. -/
theorem c3_amended_mssql_shapes :
    (∀ (get_tables : String → List String) (d : DataAccessFunctionDetail),
      (mssql_arguments d).length = 2 →
      mssql_create_dataplatform_tables get_tables d =
        two_level_access_pattern msSqlPair d) ∧
    (∀ (get_tables : String → List String) (d : DataAccessFunctionDetail),
      4 ≤ (mssql_arguments d).length →
      (mssql_arguments d).getD 2 "" ≠ "Query" →
      mssql_create_dataplatform_tables get_tables d = Except.ok []) ∧
    (∀ (get_tables : String → List String) (d : DataAccessFunctionDetail),
      (mssql_arguments d).length = 3 →
      mssql_create_dataplatform_tables get_tables d =
        Except.error "IndexError") ∧
    (∀ (get_tables : String → List String) (d : DataAccessFunctionDetail),
      (mssql_arguments d).length < 2 →
      mssql_create_dataplatform_tables get_tables d =
        Except.error "IndexError") := by
  refine ⟨?_, ?_, ?_, ?_⟩
  · intro get_tables d h
    simp [mssql_create_dataplatform_tables, h]
  · intro get_tables d h4 hq
    have h2 : ((mssql_arguments d).length == 2) = false := by
      simp only [beq_eq_false_iff_ne, ne_eq]
      omega
    simp only [mssql_create_dataplatform_tables, h2, Bool.false_eq_true,
      if_false]
    rw [if_pos ⟨h4, hq⟩]
  · intro get_tables d h
    rcases List.length_eq_three.mp h with ⟨a, b, c, habc⟩
    simp [mssql_create_dataplatform_tables, habc, py_index, Bind.bind,
      Except.bind]
  · intro get_tables d h
    rcases hl : mssql_arguments d with _ | ⟨a, _ | ⟨b, tl⟩⟩
    · simp [mssql_create_dataplatform_tables, hl, py_index, Bind.bind,
        Except.bind]
    · simp [mssql_create_dataplatform_tables, hl, py_index, Bind.bind,
        Except.bind]
    · rw [hl] at h
      simp at h
      omega

/-- Witness for C3's amended theorem at a concrete three-argument
invocation. -/
theorem c3_amended_mssql_shapes_witness :
    mssql_create_dataplatform_tables (fun _ => [])
      ⟨⟨[⟨["h"], none⟩, ⟨["d"], none⟩, ⟨["q"], none⟩]⟩, "Sql.Database",
        none⟩ = Except.error "IndexError" :=
  c3_amended_mssql_shapes.2.2.1 (fun _ => [])
    ⟨⟨[⟨["h"], none⟩, ⟨["d"], none⟩, ⟨["q"], none⟩]⟩, "Sql.Database", none⟩
    (by decide)

/-- C4: for an `Sql.Database("h","d","Query",sql)` invocation, a table name
returned by the external extractor as `schema.table` yields full name
`d.schema.table` with server `h`; a bare one-part name defaults the schema
component to `"dbo"`. -/
theorem c4_mssql_embedded_query (get_tables : String → List String)
    (server db q tbl s t : String) (acc : Option IdentifierAccessor)
    (hserver1 : is_whitespace_only server = false)
    (hserver2 : strip_quotes server = server)
    (hdb1 : is_whitespace_only db = false) (hdb2 : strip_quotes db = db)
    (hq1 : is_whitespace_only q = false) (hq2 : strip_quotes q = q)
    (hgt : get_tables q = [tbl]) :
    (py_split tbl '.' = [s, t] →
      mssql_create_dataplatform_tables get_tables
        ⟨⟨[⟨[server], none⟩, ⟨[db], none⟩, ⟨["Query"], none⟩, ⟨[q], none⟩]⟩,
          "Sql.Database", acc⟩ =
        Except.ok [⟨t, db ++ "." ++ s ++ "." ++ t, server, msSqlPair⟩]) ∧
    (py_split tbl '.' = [t] →
      mssql_create_dataplatform_tables get_tables
        ⟨⟨[⟨[server], none⟩, ⟨[db], none⟩, ⟨["Query"], none⟩, ⟨[q], none⟩]⟩,
          "Sql.Database", acc⟩ =
        Except.ok [⟨t, db ++ "." ++ "dbo" ++ "." ++ t, server, msSqlPair⟩]) := by
  have hQ1 : is_whitespace_only "Query" = false := by decide
  have hQ2 : strip_quotes "Query" = "Query" := by decide
  have hargs : mssql_arguments
      ⟨⟨[⟨[server], none⟩, ⟨[db], none⟩, ⟨["Query"], none⟩, ⟨[q], none⟩]⟩,
        "Sql.Database", acc⟩ = [server, db, "Query", q] := by
    simp [mssql_arguments, token_values, remove_whitespaces_from_list,
      strip_char_from_list, List.filter, hserver1, hdb1, hq1, hQ1, hserver2,
      hdb2, hq2, hQ2]
  constructor <;> intro hsplit <;>
    simp [mssql_create_dataplatform_tables, hargs, hgt, hsplit, py_index,
      mssql_tables_loop, List.get?, Bind.bind, Except.bind]

/-- Witness for C4 with a concrete extractor returning `s.t`. -/
theorem c4_mssql_embedded_query_witness :
    mssql_create_dataplatform_tables (fun _ => ["sch.orders"])
      ⟨⟨[⟨["h"], none⟩, ⟨["d"], none⟩, ⟨["Query"], none⟩,
          ⟨["select 1"], none⟩]⟩, "Sql.Database", none⟩ =
      Except.ok [⟨"orders", "d" ++ "." ++ "sch" ++ "." ++ "orders", "h",
        msSqlPair⟩] :=
  (c4_mssql_embedded_query (fun _ => ["sch.orders"]) "h" "d" "select 1"
    "sch.orders" "sch" "orders" none (by decide) (by decide) (by decide)
    (by decide) (by decide) (by decide) rfl).1 (by decide)

/-- C5: an Oracle invocation `Oracle.Database("host:1521/ORCL.local")` with
accessor frames `{Schema=s}` then (via next) `{Name=t}` yields exactly one
table with server `host:1521`, name `t` and full name `ORCL.s.t`; and when
the single argument does not split on `/` into exactly two segments the
strategy returns an empty sequence. -/
theorem c5_oracle_resolution :
    (∀ (s t : String),
      oracle_create_dataplatform_tables
        ⟨⟨[⟨["\"host:1521/ORCL.local\""], none⟩]⟩, "Oracle.Database",
          some (IdentifierAccessor.mk "Source" [("Schema", s)]
            (some (IdentifierAccessor.mk "inner" [("Name", t)] none)))⟩ =
        Except.ok [⟨t, "ORCL" ++ "." ++ s ++ "." ++ t, "host:1521",
          oraclePair⟩]) ∧
    (∀ (v fn : String) (acc : Option IdentifierAccessor),
      is_whitespace_only v = false → (py_split v '/').length ≠ 2 →
      oracle_create_dataplatform_tables ⟨⟨[⟨[v], none⟩]⟩, fn, acc⟩ =
        Except.ok []) := by
  constructor
  · intro s t
    rfl
  · intro v fn acc h1 h2
    simp [oracle_create_dataplatform_tables, token_values,
      remove_whitespaces_from_list, List.filter, h1, py_index, List.get?,
      oracle_get_server_and_db_name, h2, Bind.bind, Except.bind]

/-- Witness for C5's hypotheses at a concrete slash-free argument. -/
theorem c5_oracle_resolution_witness :
    oracle_create_dataplatform_tables
      ⟨⟨[⟨["hostnoslash"], none⟩]⟩, "Oracle.Database", none⟩ =
      Except.ok [] :=
  c5_oracle_resolution.2 "hostnoslash" "Oracle.Database" none (by decide)
    (by decide)

/-- Every detail produced by the backward traversal carries a recognized
data-access function name, whatever identifier, chain and fuel the traversal
starts from. -/
theorem internal_details_recognized (tree : MParseTree)
    (table_full_name : String) :
    ∀ (fuel : Nat) (current_identifier : String)
      (acc : Option IdentifierAccessor) (d : DataAccessFunctionDetail),
      d ∈ (internal tree table_full_name fuel current_identifier acc).1 →
      d.data_access_function_name ∈ SupportedResolver.get_function_names := by
  intro fuel
  induction fuel with
  | zero =>
      intro cur acc d hd
      simp [internal] at hd
  | succ fuel ih =>
      intro cur acc d hd
      simp only [internal] at hd
      rcases hst : get_variable_statement tree cur with _ | st
      · simp [hst] at hd
      · simp only [hst] at hd
        rcases st with ⟨nm, expr⟩
        rcases expr with ⟨f, alOpt⟩ | ⟨idO, itemsO⟩ | _
        · by_cases hf : f ∈ SupportedResolver.get_function_names
          · rcases alOpt with _ | al
            · simp [hf] at hd
            · simp [hf] at hd
              rw [hd]
              exact hf
          · rcases alOpt with _ | al
            · simp [hf] at hd
            · rcases hfa : al.flatArgs with _ | ⟨fa, rest⟩
              · simp [hf, hfa] at hd
              · rcases hie : fa.innerExpr with _ | toks
                · simp [hf, hfa, hie] at hd
                · simp only [hf, hfa, hie, if_neg] at hd
                  have hd2 : d ∈ (go_token_list
                      (fun u => internal tree table_full_name fuel u acc)
                      (remove_whitespaces_from_list toks)).1 := by
                    simpa [hf] using hd
                  obtain ⟨u, _, hdu⟩ := mem_go_token_list_fst hd2
                  exact ih u acc d hdu
        · rcases idO with _ | newId
          · simp at hd
          · rcases itemsO with _ | kv
            · simp at hd
            · exact ih _ _ d (by simpa using hd)
        · simp at hd

/-- C8: every `DataAccessFunctionDetail` appended to the output of
`create_data_access_functional_detail` names a function in the registry's
recognized set, and consequently the `get_resolver` lookup for it succeeds —
the "Resolver not found" fallback is unreachable for these details. -/
theorem c8_details_have_recognized_names (tree : MParseTree)
    (table_full_name : String) (fuel : Nat) (identifier : String) :
    ∀ d ∈ (create_data_access_functional_detail tree table_full_name fuel
        identifier).1,
      d.data_access_function_name ∈ SupportedResolver.get_function_names ∧
      (SupportedResolver.get_resolver d.data_access_function_name).isSome
        = true := by
  intro d hd
  have hmem := internal_details_recognized tree table_full_name fuel
    identifier none d hd
  exact ⟨hmem, get_resolver_isSome_of_mem hmem⟩

/-- A concrete two-step detail, as produced by the demo tree below. -/
def c8DemoDetail : DataAccessFunctionDetail :=
  ⟨⟨[⟨["\"h\""], none⟩, ⟨["\"d\""], none⟩]⟩, "PostgreSQL.Database",
    some (IdentifierAccessor.mk "Source"
      [("Schema", "public"), ("Item", "orders")] none)⟩

/-- A concrete two-step parse tree whose traversal produces
`c8DemoDetail`. -/
def c8DemoTree : MParseTree :=
  ⟨[⟨"t", MExpression.itemSelector (some "Source")
      (some [("Schema", "public"), ("Item", "orders")])⟩,
    ⟨"Source", MExpression.invoke "PostgreSQL.Database"
      (some ⟨[⟨["\"h\""], none⟩, ⟨["\"d\""], none⟩]⟩)⟩], some "t"⟩

/-- Witness for C8 at the concrete two-step tree. -/
theorem c8_details_have_recognized_names_witness :
    c8DemoDetail.data_access_function_name ∈
        SupportedResolver.get_function_names ∧
      (SupportedResolver.get_resolver
        c8DemoDetail.data_access_function_name).isSome = true :=
  c8_details_have_recognized_names c8DemoTree "T" 2 "t" c8DemoDetail
    (by
      rw [show (create_data_access_functional_detail c8DemoTree "T" 2
        "t").1 = [c8DemoDetail] from rfl]
      exact List.mem_singleton.mpr rfl)

/-- C9: when the output variable's statement invokes a function name outside
the registry's recognized set and the single identifier token of its first
argument has no binding statement, resolution returns zero tables, records
exactly one warning, and no exception escapes. -/
theorem c9_unknown_function_single_warning (fuel : Nat)
    (get_tables : String → List String) (tree : MParseTree)
    (table_full_name ov f t : String) (al : ArgListTree)
    (firstTokens innerToks : List String) (rest : List MArg)
    (hov : get_output_variable tree = some ov)
    (hst : get_variable_statement tree ov =
      some ⟨ov, MExpression.invoke f (some al)⟩)
    (hf : f ∉ SupportedResolver.get_function_names)
    (hfa : al.flatArgs = ⟨firstTokens, some innerToks⟩ :: rest)
    (htoks : remove_whitespaces_from_list innerToks = [t])
    (ht : get_variable_statement tree t = none)
    (hfuel : 2 ≤ fuel) :
    resolve_to_data_platform_table_list fuel get_tables tree table_full_name =
      Except.ok ([], [(table_full_name ++ "-variable-statement",
        "output variable (" ++ t ++
          ") statement not found in table expression")]) := by
  obtain ⟨k, rfl⟩ : ∃ k, fuel = k + 1 + 1 := ⟨fuel - 2, by omega⟩
  have hov2 : tree.outputVariable = some ov := hov
  simp [resolve_to_data_platform_table_list, get_output_variable, hov2,
    create_data_access_functional_detail, internal, hst, hf, hfa, htoks,
    go_token_list, ht, resolve_table_links, Bind.bind, Except.bind]

/-- Witness for C9 at a concrete tree invoking `Table.FromRows` on an
unbound identifier. -/
theorem c9_unknown_function_single_warning_witness :
    resolve_to_data_platform_table_list 2 (fun _ => [])
      ⟨[⟨"t", MExpression.invoke "Table.FromRows"
          (some ⟨[⟨["src"], some ["src"]⟩]⟩)⟩], some "t"⟩ "T" =
      Except.ok ([], [("T" ++ "-variable-statement",
        "output variable (" ++ "src" ++
          ") statement not found in table expression")]) :=
  c9_unknown_function_single_warning 2 (fun _ => [])
    ⟨[⟨"t", MExpression.invoke "Table.FromRows"
        (some ⟨[⟨["src"], some ["src"]⟩]⟩)⟩], some "t"⟩
    "T" "t" "Table.FromRows" "src" ⟨[⟨["src"], some ["src"]⟩]⟩ ["src"]
    ["src"] [] rfl rfl (by decide) rfl (by decide) rfl (by decide)

/-- C1: a well-formed two-step expression
`Source = P.Database("h","d"), t = Source{[Schema="s",Item="n"]}[Data] in t`
with `P` a recognized two-step data-access function (`PostgreSQL.Database`,
or `Sql.Database` in its two-argument case) resolves to exactly one
`DataPlatformTable` with name `n`, full name `d.s.n` and datasource server
`h`, with no warnings. -/
theorem c1_two_step_resolution (P server db s n table_full_name : String)
    (get_tables : String → List String) (fuel : Nat)
    (hP : P = "PostgreSQL.Database" ∨ P = "Sql.Database")
    (hfuel : 2 ≤ fuel)
    (hserver1 : is_whitespace_only server = false)
    (hserver2 : strip_quotes server = server)
    (hdb1 : is_whitespace_only db = false)
    (hdb2 : strip_quotes db = db) :
    ∃ pair : DataPlatformPair,
      resolve_to_data_platform_table_list fuel get_tables
        ⟨[⟨"t", MExpression.itemSelector (some "Source")
            (some [("Schema", s), ("Item", n)])⟩,
          ⟨"Source", MExpression.invoke P
            (some ⟨[⟨[server], none⟩, ⟨[db], none⟩]⟩)⟩], some "t"⟩
        table_full_name =
      Except.ok ([⟨n, db ++ "." ++ s ++ "." ++ n, server, pair⟩], []) := by
  obtain ⟨k, rfl⟩ : ∃ k, fuel = k + 1 + 1 := ⟨fuel - 2, by omega⟩
  have hargs : strip_char_from_list (remove_whitespaces_from_list
      (token_values ⟨[⟨[server], none⟩, ⟨[db], none⟩]⟩)) = [server, db] := by
    simp [token_values, remove_whitespaces_from_list, List.filter,
      hserver1, hdb1, strip_char_from_list, hserver2, hdb2]
  have hsch : dict_get [("Schema", s), ("Item", n)] "Schema" =
      Except.ok s := rfl
  have hitm : dict_get [("Schema", s), ("Item", n)] "Item" =
      Except.ok n := rfl
  have htwo : ∀ pair : DataPlatformPair, two_level_access_pattern pair
      ⟨⟨[⟨[server], none⟩, ⟨[db], none⟩]⟩, P,
        some (IdentifierAccessor.mk "Source" [("Schema", s), ("Item", n)]
          none)⟩ =
      Except.ok [⟨n, db ++ "." ++ s ++ "." ++ n, server, pair⟩] := by
    intro pair
    simp [two_level_access_pattern, get_db_detail_from_argument, hargs,
      List.get?, py_attr, hsch, hitm, IdentifierAccessor.items, Bind.bind,
      Except.bind]
  rcases hP with rfl | rfl
  · refine ⟨postgresPair, ?_⟩
    have hrun : internal
        ⟨[⟨"t", MExpression.itemSelector (some "Source")
            (some [("Schema", s), ("Item", n)])⟩,
          ⟨"Source", MExpression.invoke "PostgreSQL.Database"
            (some ⟨[⟨[server], none⟩, ⟨[db], none⟩]⟩)⟩], some "t"⟩
        table_full_name (k + 1 + 1) "t" none =
        ([⟨⟨[⟨[server], none⟩, ⟨[db], none⟩]⟩, "PostgreSQL.Database",
          some (IdentifierAccessor.mk "Source" [("Schema", s), ("Item", n)]
            none)⟩], []) := rfl
    simp [resolve_to_data_platform_table_list, get_output_variable,
      create_data_access_functional_detail, hrun, resolve_table_links,
      show SupportedResolver.get_resolver "PostgreSQL.Database" =
        some SupportedResolver.POSTGRES_SQL from rfl,
      create_dataplatform_tables, postgres_create_dataplatform_tables,
      create_or_update_identifier_accessor, htwo postgresPair, Bind.bind,
      Except.bind]
  · refine ⟨msSqlPair, ?_⟩
    have hrun : internal
        ⟨[⟨"t", MExpression.itemSelector (some "Source")
            (some [("Schema", s), ("Item", n)])⟩,
          ⟨"Source", MExpression.invoke "Sql.Database"
            (some ⟨[⟨[server], none⟩, ⟨[db], none⟩]⟩)⟩], some "t"⟩
        table_full_name (k + 1 + 1) "t" none =
        ([⟨⟨[⟨[server], none⟩, ⟨[db], none⟩]⟩, "Sql.Database",
          some (IdentifierAccessor.mk "Source" [("Schema", s), ("Item", n)]
            none)⟩], []) := rfl
    have hmssql : mssql_arguments
        ⟨⟨[⟨[server], none⟩, ⟨[db], none⟩]⟩, "Sql.Database",
          some (IdentifierAccessor.mk "Source" [("Schema", s), ("Item", n)]
            none)⟩ = [server, db] := by
      simpa [mssql_arguments] using hargs
    simp [resolve_to_data_platform_table_list, get_output_variable,
      create_data_access_functional_detail, hrun, resolve_table_links,
      show SupportedResolver.get_resolver "Sql.Database" =
        some SupportedResolver.MS_SQL from rfl,
      create_dataplatform_tables, mssql_create_dataplatform_tables, hmssql,
      create_or_update_identifier_accessor, htwo msSqlPair, Bind.bind,
      Except.bind]

/-- Witness for C1 at the concrete PostgreSQL two-step expression. -/
theorem c1_two_step_resolution_witness :
    ∃ pair : DataPlatformPair,
      resolve_to_data_platform_table_list 2 (fun _ => [])
        ⟨[⟨"t", MExpression.itemSelector (some "Source")
            (some [("Schema", "public"), ("Item", "orders")])⟩,
          ⟨"Source", MExpression.invoke "PostgreSQL.Database"
            (some ⟨[⟨["localhost"], none⟩, ⟨["library"], none⟩]⟩)⟩],
          some "t"⟩ "T" =
      Except.ok ([⟨"orders",
        "library" ++ "." ++ "public" ++ "." ++ "orders", "localhost",
        pair⟩], []) :=
  c1_two_step_resolution "PostgreSQL.Database" "localhost" "library"
    "public" "orders" "T" (fun _ => []) 2 (Or.inl rfl) (by decide)
    (by decide) (by decide) (by decide) (by decide)

/-- Argument list of the first fan-out branch of the demo expression. -/
def c7ArgList1 : ArgListTree := ⟨[⟨["\"h1\""], none⟩, ⟨["\"d1\""], none⟩]⟩

/-- Argument list of the second fan-out branch of the demo expression. -/
def c7ArgList2 : ArgListTree := ⟨[⟨["\"h2\""], none⟩, ⟨["\"d2\""], none⟩]⟩

/-- A fan-out expression: the output variable selects an item out of
`Combined = Table.Combine({t1, t2})`, and each of `t1`, `t2` is its own
data-access invocation. -/
def c7FanOutTree : MParseTree :=
  ⟨[⟨"t", MExpression.itemSelector (some "Combined")
      (some [("Schema", "public"), ("Item", "orders")])⟩,
    ⟨"Combined", MExpression.invoke "Table.Combine"
      (some ⟨[⟨["t1", "t2"], some ["t1", "t2"]⟩]⟩)⟩,
    ⟨"t1", MExpression.invoke "PostgreSQL.Database" (some c7ArgList1)⟩,
    ⟨"t2", MExpression.invoke "PostgreSQL.Database" (some c7ArgList2)⟩],
   some "t"⟩

/-- Counterexample for C7: resolving the fan-out expression produces two
distinct details whose accessor chains reference the *same* store node
(index 0) — the frame built before the fan-out is shared, not cloned — so
mutating that frame's items mapping changes the chain contents observed
through both details at once. -/
theorem c7_fanout_chain_sharing :
    (internal_heap c7FanOutTree "T" 4 "t" none []).1 =
      [⟨c7ArgList1, "PostgreSQL.Database", some 0⟩,
        ⟨c7ArgList2, "PostgreSQL.Database", some 0⟩] ∧
    (⟨c7ArgList1, "PostgreSQL.Database", some 0⟩ : HDetail) ≠
      ⟨c7ArgList2, "PostgreSQL.Database", some 0⟩ ∧
    detail_chain_items (internal_heap c7FanOutTree "T" 4 "t" none []).2
        (some 0) = [[("Schema", "public"), ("Item", "orders")]] ∧
    detail_chain_items
        (mutate_items (internal_heap c7FanOutTree "T" 4 "t" none []).2 0
          [("Schema", "hacked")]) (some 0) =
      [[("Schema", "hacked")]] :=
  ⟨rfl, by decide, rfl, rfl⟩

/-- The store-threading token fan-out only appends to the store when every
branch does. -/
theorem go_token_list_heap_heap_extends
    {f : String → List HNode → List HDetail × List HNode}
    (hf : ∀ t heap, ∃ ext, (f t heap).2 = heap ++ ext) :
    ∀ (ts : List String) (heap : List HNode),
      ∃ ext, (go_token_list_heap f ts heap).2 = heap ++ ext := by
  intro ts
  induction ts with
  | nil =>
      intro heap
      exact ⟨[], by simp [go_token_list_heap]⟩
  | cons t ts ih =>
      intro heap
      obtain ⟨e1, h1⟩ := hf t heap
      obtain ⟨e2, h2⟩ := ih (f t heap).2
      rw [h1] at h2
      exact ⟨e1 ++ e2, by simp [go_token_list_heap, h1, h2,
        List.append_assoc]⟩

/-- C7 (amended): the traversal never mutates an existing accessor frame —
every item-selector step allocates a brand-new node, so the accessor store
only ever grows by appending (existing cells, hence existing chains, keep
their contents); fan-out branches, however, receive the same chain
reference, so details from different branches may share the frames built
before the fan-out. -/
theorem c7_amended_accessor_store_append_only (tree : MParseTree)
    (table_full_name : String) :
    ∀ (fuel : Nat) (current_identifier : String) (acc : Option Nat)
      (heap : List HNode),
      ∃ ext, (internal_heap tree table_full_name fuel current_identifier acc
        heap).2 = heap ++ ext := by
  intro fuel
  induction fuel with
  | zero =>
      intro cur acc heap
      exact ⟨[], by simp [internal_heap]⟩
  | succ fuel ih =>
      intro cur acc heap
      rcases hst : get_variable_statement tree cur with _ | st
      · exact ⟨[], by simp [internal_heap, hst]⟩
      · rcases st with ⟨nm, expr⟩
        rcases expr with ⟨f, alOpt⟩ | ⟨idO, itemsO⟩ | _
        · by_cases hf : f ∈ SupportedResolver.get_function_names
          · rcases alOpt with _ | al
            · exact ⟨[], by simp [internal_heap, hst, hf]⟩
            · exact ⟨[], by simp [internal_heap, hst, hf]⟩
          · rcases alOpt with _ | al
            · exact ⟨[], by simp [internal_heap, hst, hf]⟩
            · rcases hfa : al.flatArgs with _ | ⟨fa, rest⟩
              · exact ⟨[], by simp [internal_heap, hst, hf, hfa]⟩
              · rcases hie : fa.innerExpr with _ | toks
                · exact ⟨[], by simp [internal_heap, hst, hf, hfa, hie]⟩
                · obtain ⟨ext, hext⟩ := go_token_list_heap_heap_extends
                    (fun u h => ih u acc h)
                    (remove_whitespaces_from_list toks) heap
                  refine ⟨ext, ?_⟩
                  simp only [internal_heap, hst, hf, hfa, hie]
                  simpa [hf] using hext
        · rcases idO with _ | newId
          · exact ⟨[], by simp [internal_heap, hst]⟩
          · rcases itemsO with _ | kv
            · exact ⟨[], by simp [internal_heap, hst]⟩
            · rcases acc with _ | prev
              · obtain ⟨ext, hext⟩ := ih newId (some heap.length)
                  (heap ++ [⟨newId, kv, none⟩])
                refine ⟨⟨newId, kv, none⟩ :: ext, ?_⟩
                simp only [internal_heap, hst,
                  create_or_update_identifier_accessor_heap]
                rw [hext, List.append_assoc]
                simp
              · obtain ⟨ext, hext⟩ := ih newId (some heap.length)
                  (heap ++ [⟨newId, kv, some prev⟩])
                refine ⟨⟨newId, kv, some prev⟩ :: ext, ?_⟩
                simp only [internal_heap, hst,
                  create_or_update_identifier_accessor_heap]
                rw [hext, List.append_assoc]
                simp
        · exact ⟨[], by simp [internal_heap, hst]⟩
